import Mathlib

/-!
# Verification of the VCF DUP-record repair tool (`src/01.py`)

The repository is a single script: `process_vcf` streams VCF records,
and for each record whose ID field contains a keyword it replaces REF by
the reference-genome base at POS, replaces ALT by the symbolic allele
`<DUP>`, and sets `INFO["SVTYPE"] = "DUP"`.  Records whose genome lookup
raises are warned about and the loop `continue`s (so they are *not*
written).  All other records are written in input order.

This file shallowly embeds the script: records are a structure, the
genome is an association list of contig name to base string, and the
per-record loop body becomes `transform` / `process_vcf` below.
-/

set_option autoImplicit false

/-- Python's substring check `needle in hay`, on lists of characters:
`startsWithList n h` is true when `n` is an initial segment of `h`. -/
def startsWithList : List Char → List Char → Bool
  | [], _ => true
  | _ :: _, [] => false
  | a :: as, b :: bs => a == b && startsWithList as bs

/-- True when `n` occurs contiguously in `h`
(Python's `n in h` for strings). -/
def listContainsSub (n : List Char) : List Char → Bool
  | [] => n == []
  | c :: cs => startsWithList n (c :: cs) || listContainsSub n cs

/-- Python `needle in hay` on strings (case-sensitive substring test,
no wildcard or regex semantics); used for `keyword in str(_id)`. -/
def strIn (needle hay : String) : Bool :=
  listContainsSub needle.data hay.data

/-- The `record.ID` field as `vcfpy` hands it to the script: the code at
line 79 branches on `isinstance(record.ID, list)`, so the field is either
a list of identifier strings, a single scalar identifier, or absent
(`None`).  Identifiers are modelled after `str(_id)` conversion. -/
inductive VcfId where
  | missing
  | scalar (s : String)
  | seq (l : List String)
deriving DecidableEq

/-- Python truthiness of the raw `record.ID` value, as tested by
`if record.ID and ...` (line 80): `None`, `""` and `[]` are falsy. -/
def VcfId.truthy : VcfId → Bool
  | .missing => false
  | .scalar s => !(s == "")
  | .seq l => !l.isEmpty

/-- Line 79: `id_list = record.ID if isinstance(record.ID, list) else
[record.ID]`.  For an absent ID this is `[None]`, whose element prints
as `"None"` under `str`; that branch is unreachable behind the
truthiness guard. -/
def VcfId.asList : VcfId → List String
  | .missing => ["None"]
  | .scalar s => [s]
  | .seq l => l

/-- The spec's normalization of identifiers: "a record with a single
scalar identifier is treated as a one-element sequence; a record with no
identifier is treated as empty".  Used only to compare the spec's
matching rule with the code's. -/
def VcfId.specSeq : VcfId → List String
  | .missing => []
  | .scalar s => [s]
  | .seq l => l

/-- Line 80: `record.ID and any(keyword in str(_id) for _id in id_list)`. -/
def matchesKeyword (keyword : String) (i : VcfId) : Bool :=
  i.truthy && i.asList.any (fun s => strIn keyword s)

/-- Modelled from the spec: the matching rule as §4.1 states it — "the
record matches if `identifiers` is non-empty AND at least one
identifier, converted to its string form, contains `keyword` as a
substring". -/
def specMatches (keyword : String) (i : VcfId) : Bool :=
  !i.specSeq.isEmpty && i.specSeq.any (fun s => strIn keyword s)

/-- One ALT value: either a symbolic allele such as `<DUP>` (what
`vcfpy.SymbolicAllele "DUP"` constructs, line 93) or a literal base
string. -/
inductive Allele where
  | symbolic (tag : String)
  | literal (s : String)
deriving DecidableEq

/-- One VCF data record as the script reads and mutates it.  `INFO` is
an ordered key-value map (`vcfpy` uses an `OrderedDict`), kept here as
an association list with unique keys. -/
structure VariantRecord where
  ID : VcfId
  CHROM : String
  POS : Nat
  REF : String
  ALT : List Allele
  INFO : List (String × String)
deriving DecidableEq

/-- The opened reference genome: named contigs, each an ordered base
sequence, read-only. -/
def Genome := List (String × String)

/-- How the single-base fetch `genome[chrom][pos - 1:pos]` can fail. -/
inductive LookupErr where
  | contigNotFound
  | outOfRange
deriving DecidableEq

/-- Line 87: `genome[chrom][pos - 1:pos].seq`.  A missing contig raises
`KeyError` (caught at line 101); per the spec's Reference Sequence
Provider, a position outside the contig fails with a generic error
(caught at line 104).  The 1-based POS is read at the 0-based half-open
range `[POS - 1, POS)`, i.e. index `POS - 1`. -/
def lookupBase (genome : Genome) (chrom : String) (pos : Nat) :
    Except LookupErr Char :=
  match List.find? (fun p => p.1 == chrom) genome with
  | none => Except.error LookupErr.contigNotFound
  | some entry =>
    if h : 1 ≤ pos ∧ pos ≤ entry.2.data.length then
      Except.ok (entry.2.data.get ⟨pos - 1, by omega⟩)
    else Except.error LookupErr.outOfRange

/-- What happened to one record in the loop body. -/
inductive Outcome where
  | skipped
  | processed
  | contigNotFound
  | err
deriving DecidableEq

/-- Whether the key is already present — decides if Python's
`record.INFO["SVTYPE"] = ...` updates an existing entry. -/
def hasKey (info : List (String × String)) (k : String) : Bool :=
  info.any (fun p => p.1 == k)

/-- Replace the value stored under `k`, keeping every entry in place. -/
def replaceVal (info : List (String × String)) (k v : String) :
    List (String × String) :=
  info.map (fun p => if p.1 == k then (k, v) else p)

/-- Line 97: assignment into the ordered INFO map.  An existing key is
overwritten in place (position preserved); a new key is appended at the
end. -/
def setInfo (info : List (String × String)) (k v : String) :
    List (String × String) :=
  if hasKey info k then replaceVal info k v else info ++ [(k, v)]

/-- Read a key out of the INFO map (first entry with that key). -/
def getInfo (info : List (String × String)) (k : String) :
    Option String :=
  Option.map (fun p => p.2) (List.find? (fun p => p.1 == k) info)

/-- The loop body, lines 78–106: match the ID against the keyword; on a
match fetch the base at POS, uppercase it into REF, set ALT to
`[<DUP>]`, set `INFO["SVTYPE"] = "DUP"`.  A failed fetch leaves the
record untouched (the lookup precedes every mutation).  Returns the
possibly mutated record and what happened. -/
def transform (genome : Genome) (keyword : String) (r : VariantRecord) :
    VariantRecord × Outcome :=
  if matchesKeyword keyword r.ID then
    match lookupBase genome r.CHROM r.POS with
    | Except.error LookupErr.contigNotFound => (r, Outcome.contigNotFound)
    | Except.error LookupErr.outOfRange => (r, Outcome.err)
    | Except.ok c =>
      ({ r with
          REF := String.mk [c.toUpper],
          ALT := [Allele.symbolic "DUP"],
          INFO := setInfo r.INFO "SVTYPE" "DUP" }, Outcome.processed)
  else (r, Outcome.skipped)

/-- One diagnostic line printed to stderr: line 102 names the contig and
position; line 105 names the contig, position and error. -/
inductive Warning where
  | contigNotFound (chrom : String) (pos : Nat)
  | recordError (chrom : String) (pos : Nat)
deriving DecidableEq

/-- Everything observable from one run of the loop: the records written
to the output VCF in order, the final `processed_count`, and the
warnings emitted to stderr in order. -/
structure RunResult where
  written : List VariantRecord
  processedCount : Nat
  warnings : List Warning
deriving DecidableEq

/-- The loop of lines 77–109 over the whole record stream.  On
`Outcome.contigNotFound` and `Outcome.err` the handlers print a warning
and `continue` (lines 101–106), so `writer.write_record(record)` at
line 109 is skipped and the record is dropped; on `Outcome.processed`
the count is incremented (line 99) and the mutated record is written;
on `Outcome.skipped` the unchanged record is written. -/
def process_vcf (genome : Genome) (keyword : String) :
    List VariantRecord → RunResult
  | [] => ⟨[], 0, []⟩
  | r :: rs =>
    let step := transform genome keyword r
    let rest := process_vcf genome keyword rs
    match step.2 with
    | Outcome.contigNotFound =>
      ⟨rest.written, rest.processedCount,
        Warning.contigNotFound r.CHROM r.POS :: rest.warnings⟩
    | Outcome.err =>
      ⟨rest.written, rest.processedCount,
        Warning.recordError r.CHROM r.POS :: rest.warnings⟩
    | Outcome.processed =>
      ⟨step.1 :: rest.written, rest.processedCount + 1, rest.warnings⟩
    | Outcome.skipped =>
      ⟨step.1 :: rest.written, rest.processedCount, rest.warnings⟩

/-- A small reference genome for concrete runs: two contigs, mixed
case, so that uppercasing is observable. -/
def genomeA : Genome := [("chr1", "ttgG"), ("chr2", "acgt")]

/-- A matching record (ID contains `DUP`) on a present contig, with an
existing SVTYPE entry. -/
def recDup : VariantRecord :=
  { ID := VcfId.seq ["sv_DUP_001"], CHROM := "chr1", POS := 3,
    REF := "N", ALT := [Allele.literal "A"],
    INFO := [("SVTYPE", "INS"), ("END", "600")] }

/-- A non-matching record (ID does not contain `DUP`). -/
def recIns : VariantRecord :=
  { ID := VcfId.seq ["sv_INS_002"], CHROM := "chr1", POS := 2,
    REF := "T", ALT := [Allele.symbolic "INS"],
    INFO := [("SVTYPE", "INS")] }

/-- A matching record whose contig is absent from the genome. -/
def recMissing : VariantRecord :=
  { ID := VcfId.seq ["sv_DUP_003"], CHROM := "chrX", POS := 5,
    REF := "N", ALT := [Allele.symbolic "INS"],
    INFO := [("SVTYPE", "INS")] }

/-- A matching record with no SVTYPE entry in INFO. -/
def recNoSv : VariantRecord :=
  { ID := VcfId.seq ["DUP_noSV"], CHROM := "chr2", POS := 1,
    REF := "N", ALT := [], INFO := [("END", "5")] }

/-- A record whose ID is the scalar empty string: its normalized
identifier sequence is the one-element `[""]`, yet the raw Python value
is falsy. -/
def recScalarEmpty : VariantRecord :=
  { ID := VcfId.scalar "", CHROM := "chr1", POS := 1,
    REF := "N", ALT := [], INFO := [] }

/-! ## Helper lemmas -/

/-- The empty needle is a substring of every string. -/
theorem strIn_empty (s : String) : strIn "" s = true := by
  show listContainsSub [] s.data = true
  induction s.data with
  | nil => rfl
  | cons c cs ih => simp [listContainsSub, startsWithList]

/-- The empty haystack contains only the empty needle. -/
theorem strIn_of_empty_hay (n : String) : strIn n "" = (n.data == []) := rfl

/-- The loop body leaves a record untouched exactly on non-match or
lookup failure; on a match it is never `skipped`. -/
theorem transform_snd_ne_skipped (g : Genome) (kw : String)
    (r : VariantRecord) :
    (transform g kw r).2 ≠ Outcome.skipped ↔ matchesKeyword kw r.ID = true := by
  unfold transform
  by_cases h : matchesKeyword kw r.ID
  · simp only [h, if_true]
    cases hl : lookupBase g r.CHROM r.POS with
    | error e => cases e <;> simp
    | ok c => simp
  · simp [h]

/-- Characterization of a successful pass through the loop body. -/
theorem transform_processed (g : Genome) (kw : String) (r : VariantRecord)
    (h : (transform g kw r).2 = Outcome.processed) :
    matchesKeyword kw r.ID = true ∧
      ∃ c, lookupBase g r.CHROM r.POS = Except.ok c ∧
        (transform g kw r).1 =
          { r with
              REF := String.mk [c.toUpper],
              ALT := [Allele.symbolic "DUP"],
              INFO := setInfo r.INFO "SVTYPE" "DUP" } := by
  unfold transform at h ⊢
  by_cases hm : matchesKeyword kw r.ID
  · simp only [hm, if_true] at h ⊢
    cases hl : lookupBase g r.CHROM r.POS with
    | error e => cases e <;> simp_all
    | ok c => exact ⟨trivial, c, rfl, by simp⟩
  · simp [hm] at h

/-- A record the code matches also matches the spec's rule. -/
theorem matchesKeyword_imp_specMatches (kw : String) (i : VcfId)
    (h : matchesKeyword kw i = true) : specMatches kw i = true := by
  cases i with
  | missing => simp [matchesKeyword, VcfId.truthy] at h
  | scalar s =>
    simp only [matchesKeyword, VcfId.truthy, VcfId.asList, Bool.and_eq_true] at h
    simp [specMatches, VcfId.specSeq, h.2]
  | seq l =>
    simpa [matchesKeyword, VcfId.truthy, VcfId.asList, specMatches,
      VcfId.specSeq] using h

/-- With a non-empty keyword the code's matching rule and the spec's
matching rule agree. -/
theorem matchesKeyword_eq_specMatches (kw : String) (i : VcfId)
    (hkw : kw ≠ "") : matchesKeyword kw i = specMatches kw i := by
  cases i with
  | missing => rfl
  | scalar s =>
    simp only [matchesKeyword, VcfId.truthy, VcfId.asList, specMatches,
      VcfId.specSeq, List.any_cons, List.any_nil, List.isEmpty_cons,
      Bool.not_false, Bool.true_and]
    by_cases hs : s = ""
    · subst hs
      have h1 : strIn kw "" = false := by
        rw [strIn_of_empty_hay]
        cases hd : kw.data with
        | nil => exact absurd (String.ext (hd.trans rfl)) hkw
        | cons c cs => rfl
      simp [h1]
    · simp [hs]
  | seq l => rfl

/-- With the empty keyword the code's matching rule is exactly Python
truthiness of the raw ID field. -/
theorem matchesKeyword_empty (i : VcfId) :
    matchesKeyword "" i = i.truthy := by
  cases i with
  | missing => rfl
  | scalar s => simp [matchesKeyword, VcfId.truthy, VcfId.asList, strIn_empty]
  | seq l =>
    cases l with
    | nil => rfl
    | cons a as =>
      simp [matchesKeyword, VcfId.truthy, VcfId.asList, strIn_empty]

/-- Unfolding lemma: key search in an empty INFO map. -/
theorem hasKey_nil (k : String) : hasKey [] k = false := rfl

/-- Unfolding lemma: key search steps through the first entry. -/
theorem hasKey_cons (p : String × String) (ps : List (String × String))
    (k : String) : hasKey (p :: ps) k = ((p.1 == k) || hasKey ps k) := rfl

/-- Unfolding lemma: value replacement steps through the first entry. -/
theorem replaceVal_cons (p : String × String) (ps : List (String × String))
    (k v : String) :
    replaceVal (p :: ps) k v =
      (if p.1 == k then (k, v) else p) :: replaceVal ps k v := rfl

/-- Unfolding lemma: reading a key steps through the first entry. -/
theorem getInfo_cons (p : String × String) (ps : List (String × String))
    (k : String) :
    getInfo (p :: ps) k = if p.1 == k then some p.2 else getInfo ps k := by
  unfold getInfo
  cases hp : (p.1 == k) with
  | true => simp [List.find?_cons, hp]
  | false => simp [List.find?_cons, hp]

/-- Rewriting a key's value does not change which keys are present. -/
theorem hasKey_replaceVal (info : List (String × String)) (k v : String) :
    hasKey (replaceVal info k v) k = hasKey info k := by
  induction info with
  | nil => rfl
  | cons p ps ih =>
    rw [replaceVal_cons, hasKey_cons, hasKey_cons, ih]
    by_cases hp : p.1 == k
    · rw [if_pos hp, hp]
      simp
    · rw [if_neg hp]

/-- Rewriting the same key twice is the same as rewriting it once. -/
theorem replaceVal_replaceVal (info : List (String × String))
    (k v : String) :
    replaceVal (replaceVal info k v) k v = replaceVal info k v := by
  induction info with
  | nil => rfl
  | cons p ps ih =>
    rw [replaceVal_cons, replaceVal_cons, ih]
    by_cases hp : p.1 == k
    · rw [if_pos hp]
      simp
    · rw [if_neg hp, if_neg hp]

/-- Rewriting a key that is absent changes nothing. -/
theorem replaceVal_of_not_hasKey (info : List (String × String))
    (k v : String) (h : hasKey info k = false) :
    replaceVal info k v = info := by
  induction info with
  | nil => rfl
  | cons p ps ih =>
    rw [hasKey_cons, Bool.or_eq_false_iff] at h
    rw [replaceVal_cons, if_neg (by simp [h.1]), ih h.2]

/-- Rewriting a key keeps the key sequence of the map unchanged. -/
theorem keys_replaceVal (info : List (String × String)) (k v : String) :
    List.map Prod.fst (replaceVal info k v) = List.map Prod.fst info := by
  induction info with
  | nil => rfl
  | cons p ps ih =>
    rw [replaceVal_cons, List.map_cons, List.map_cons, ih]
    by_cases hp : p.1 == k
    · have hpk : p.1 = k := by simpa using hp
      rw [if_pos hp]
      simp [hpk]
    · rw [if_neg hp]

/-- After the INFO assignment the key holds the assigned value. -/
theorem getInfo_setInfo_same (info : List (String × String))
    (k v : String) : getInfo (setInfo info k v) k = some v := by
  unfold setInfo
  by_cases hk : hasKey info k
  · rw [if_pos hk]
    induction info with
    | nil => simp [hasKey] at hk
    | cons p ps ih =>
      rw [replaceVal_cons]
      by_cases hp : p.1 == k
      · rw [if_pos hp, getInfo_cons]
        simp
      · have hpb : (p.1 == k) = false := by simpa using hp
        rw [if_neg hp, getInfo_cons, if_neg hp]
        rw [hasKey_cons, hpb, Bool.false_or] at hk
        exact ih hk
  · rw [if_neg hk]
    rw [Bool.not_eq_true] at hk
    induction info with
    | nil =>
      rw [List.nil_append, getInfo_cons]
      simp
    | cons p ps ih =>
      rw [hasKey_cons, Bool.or_eq_false_iff] at hk
      rw [List.cons_append, getInfo_cons, if_neg (by simp [hk.1])]
      exact ih hk.2

/-- The INFO assignment leaves every other key's value alone. -/
theorem getInfo_setInfo_other (info : List (String × String))
    (k v q : String) (hq : q ≠ k) :
    getInfo (setInfo info k v) q = getInfo info q := by
  have hkq : (k == q) = false := by simpa using fun h => hq h.symm
  unfold setInfo
  by_cases hk : hasKey info k
  · rw [if_pos hk]
    clear hk
    induction info with
    | nil => rfl
    | cons p ps ih =>
      rw [replaceVal_cons, getInfo_cons, getInfo_cons, ih]
      by_cases hp : p.1 == k
      · have hpk : p.1 = k := by simpa using hp
        rw [if_pos hp]
        have hpq : (p.1 == q) = false := by rw [hpk]; exact hkq
        simp only [hpq, hkq]
        simp
      · rw [if_neg hp]
  · rw [if_neg hk]
    clear hk
    induction info with
    | nil =>
      rw [List.nil_append, getInfo_cons]
      simp [hkq]
    | cons p ps ih =>
      rw [List.cons_append, getInfo_cons, getInfo_cons, ih]

/-- The INFO assignment leaves the entries under every other key, and
their relative order, unchanged. -/
theorem filter_setInfo (info : List (String × String)) (k v : String) :
    List.filter (fun p => !(p.1 == k)) (setInfo info k v) =
      List.filter (fun p => !(p.1 == k)) info := by
  unfold setInfo
  by_cases hk : hasKey info k
  · rw [if_pos hk]
    clear hk
    induction info with
    | nil => rfl
    | cons p ps ih =>
      rw [replaceVal_cons, List.filter_cons, List.filter_cons, ih]
      by_cases hp : p.1 == k
      · rw [if_pos hp]
        simp [hp]
      · rw [if_neg hp]
  · rw [if_neg hk]
    rw [List.filter_append]
    simp

/-- Assigning the same key and value twice is the same as doing it
once: the second pass replays the replacement branch. -/
theorem setInfo_idem (info : List (String × String)) (k v : String) :
    setInfo (setInfo info k v) k v = setInfo info k v := by
  by_cases hk : hasKey info k
  · have h1 : setInfo info k v = replaceVal info k v := if_pos hk
    rw [h1]
    unfold setInfo
    rw [hasKey_replaceVal, if_pos hk, replaceVal_replaceVal]
  · rw [Bool.not_eq_true] at hk
    have h1 : setInfo info k v = info ++ [(k, v)] := if_neg (by simp [hk])
    rw [h1]
    unfold setInfo
    have h2 : hasKey (info ++ [(k, v)]) k = true := by
      unfold hasKey
      rw [List.any_append]
      simp
    rw [if_pos h2]
    unfold replaceVal
    rw [List.map_append]
    have h3 : replaceVal info k v = info := replaceVal_of_not_hasKey info k v hk
    unfold replaceVal at h3
    rw [h3]
    simp

/-- The key sequence of the INFO map after assignment: unchanged when
the key was present, the key appended when it was absent. -/
theorem keys_setInfo (info : List (String × String)) (k v : String) :
    List.map Prod.fst (setInfo info k v) =
      (if hasKey info k then List.map Prod.fst info
       else List.map Prod.fst info ++ [k]) := by
  unfold setInfo
  by_cases hk : hasKey info k
  · rw [if_pos hk, if_pos hk, keys_replaceVal]
  · rw [if_neg hk, if_neg hk, List.map_append]
    rfl

/-! ## Claim theorems -/

/-- C1, counterexample: the record `recMissing` matches the keyword and
its contig is absent from the genome; a warning is emitted, but the
output stream is empty — the record was dropped, not forwarded.  This
refutes "the record is still forwarded to the output stream ... it is
not dropped": the `continue` in the handlers skips the write. -/
theorem C1_counterexample :
    matchesKeyword "DUP" recMissing.ID = true ∧
    (transform genomeA "DUP" recMissing).2 = Outcome.contigNotFound ∧
    (process_vcf genomeA "DUP" [recMissing]).written = [] ∧
    (process_vcf genomeA "DUP" [recMissing]).warnings =
      [Warning.contigNotFound "chrX" 5] := by
  refine ⟨by decide, by decide, ?_, ?_⟩ <;> decide

/-- C1, amended: for every matching record whose per-record lookup or
mutation fails, a warning is emitted and the record is dropped from the
output stream (its write is skipped); the failure does not halt the
stream — the remaining records are processed exactly as before. -/
theorem C1_warn_and_drop (g : Genome) (kw : String) (r : VariantRecord)
    (rs : List VariantRecord)
    (h : (transform g kw r).2 = Outcome.contigNotFound ∨
      (transform g kw r).2 = Outcome.err) :
    (process_vcf g kw (r :: rs)).written = (process_vcf g kw rs).written ∧
    (process_vcf g kw (r :: rs)).processedCount =
      (process_vcf g kw rs).processedCount ∧
    (process_vcf g kw (r :: rs)).warnings.length =
      (process_vcf g kw rs).warnings.length + 1 := by
  cases h with
  | inl h1 => simp [process_vcf, h1]
  | inr h1 => simp [process_vcf, h1]

/-- C1, witness: the amended statement at a concrete run. -/
theorem C1_warn_and_drop_witness :
    ((transform genomeA "DUP" recMissing).2 = Outcome.contigNotFound ∨
      (transform genomeA "DUP" recMissing).2 = Outcome.err) ∧
    (process_vcf genomeA "DUP" (recMissing :: [recIns])).written =
      (process_vcf genomeA "DUP" [recIns]).written :=
  ⟨Or.inl (by decide),
    (C1_warn_and_drop genomeA "DUP" recMissing [recIns]
      (Or.inl (by decide))).1⟩

/-- C2, counterexample: a two-record input stream whose first record is
a matching record on an absent contig produces a one-record output
stream — the output does not have the same count as the input. -/
theorem C2_counterexample :
    (process_vcf genomeA "DUP" [recMissing, recIns]).written.length = 1 ∧
    [recMissing, recIns].length = 2 := by
  refine ⟨by decide, by decide⟩

/-- C2, amended: the output record sequence is the input sequence with
each surviving record transformed in place and exactly the matching
records whose lookup or mutation failed removed; in particular it is an
order-preserving subsequence of the transformed input — no record is
added and no record is reordered, but failed matching records are
dropped, so the counts can differ. -/
theorem C2_order_preserving (g : Genome) (kw : String)
    (rs : List VariantRecord) :
    (process_vcf g kw rs).written = rs.filterMap (fun r =>
      if (transform g kw r).2 = Outcome.contigNotFound ∨
          (transform g kw r).2 = Outcome.err then none
      else some (transform g kw r).1) ∧
    List.Sublist (process_vcf g kw rs).written
      (rs.map (fun r => (transform g kw r).1)) := by
  induction rs with
  | nil => exact ⟨rfl, List.Sublist.slnil⟩
  | cons r rs ih =>
    cases ho : (transform g kw r).2 with
    | skipped =>
      have hr : (transform g kw r) = ((transform g kw r).1, Outcome.skipped) := by
        rw [← ho]
      constructor
      · rw [List.filterMap_cons]
        simp only [ho]
        simp only [process_vcf]
        rw [hr]
        simp [ih.1]
      · simp only [process_vcf]
        rw [hr]
        simpa using List.Sublist.cons₂ ((transform g kw r).1) ih.2
    | processed =>
      have hr : (transform g kw r) = ((transform g kw r).1, Outcome.processed) := by
        rw [← ho]
      constructor
      · rw [List.filterMap_cons]
        simp only [ho]
        simp only [process_vcf]
        rw [hr]
        simp [ih.1]
      · simp only [process_vcf]
        rw [hr]
        simpa using List.Sublist.cons₂ ((transform g kw r).1) ih.2
    | contigNotFound =>
      have hr : (transform g kw r) = ((transform g kw r).1, Outcome.contigNotFound) := by
        rw [← ho]
      constructor
      · rw [List.filterMap_cons]
        simp only [ho]
        simp only [process_vcf]
        rw [hr]
        simp [ih.1]
      · simp only [process_vcf]
        rw [hr]
        simpa using List.Sublist.cons ((transform g kw r).1) ih.2
    | err =>
      have hr : (transform g kw r) = ((transform g kw r).1, Outcome.err) := by
        rw [← ho]
      constructor
      · rw [List.filterMap_cons]
        simp only [ho]
        simp only [process_vcf]
        rw [hr]
        simp [ih.1]
      · simp only [process_vcf]
        rw [hr]
        simpa using List.Sublist.cons ((transform g kw r).1) ih.2

/-- C3: with a (spec-conformant) non-empty keyword, the transform is
applied — the record is not skipped — if and only if the record's
normalized identifier sequence is non-empty and at least one identifier
contains the keyword as a case-sensitive substring. -/
theorem C3_matching_rule (g : Genome) (kw : String) (r : VariantRecord)
    (hkw : kw ≠ "") :
    ((transform g kw r).2 ≠ Outcome.skipped ↔ specMatches kw r.ID = true) := by
  rw [transform_snd_ne_skipped, matchesKeyword_eq_specMatches kw r.ID hkw]

/-- C3, witness: the matching rule at a concrete record and keyword. -/
theorem C3_matching_rule_witness :
    ("DUP" : String) ≠ "" ∧
    ((transform genomeA "DUP" recDup).2 ≠ Outcome.skipped ↔
      specMatches "DUP" recDup.ID = true) :=
  ⟨by decide, C3_matching_rule genomeA "DUP" recDup (by decide)⟩

/-- C4: for a matching record whose contig is found in the genome and
whose 1-based POS lies within the contig, the transformed record's REF
is the single base at 0-based index `POS - 1` of that contig,
uppercased. -/
theorem C4_ref_base (g : Genome) (kw : String) (r : VariantRecord)
    (entry : String × String)
    (hm : matchesKeyword kw r.ID = true)
    (hc : List.find? (fun p => p.1 == r.CHROM) g = some entry)
    (hp : 1 ≤ r.POS ∧ r.POS ≤ entry.2.data.length) :
    (transform g kw r).1.REF =
      String.mk [(entry.2.data.get ⟨r.POS - 1, by omega⟩).toUpper] := by
  unfold transform lookupBase
  rw [hc, if_pos hm]
  have hp2 : 1 ≤ r.POS ∧ r.POS ≤ entry.2.length := by simpa using hp
  simp [dif_pos hp, dif_pos hp2]

/-- C4, witness: on `genomeA` the base at 1-based position 3 of `chr1`
is the lowercase `g`; the transformed REF is the uppercase `G`. -/
theorem C4_ref_base_witness :
    matchesKeyword "DUP" recDup.ID = true ∧
    List.find? (fun p => p.1 == recDup.CHROM) genomeA =
      some ("chr1", "ttgG") ∧
    (1 ≤ recDup.POS ∧ recDup.POS ≤ ("chr1", "ttgG").2.data.length) ∧
    (transform genomeA "DUP" recDup).1.REF = "G" := by
  refine ⟨by decide, by decide, by decide, ?_⟩
  have h := C4_ref_base genomeA "DUP" recDup ("chr1", "ttgG")
    (by decide) (by decide) (by decide)
  exact h.trans (by decide)

/-- C5: after a successful transform, INFO maps SVTYPE to the literal
string DUP; when the key was already present the key sequence of the
map is unchanged (the value is overwritten in place), and when it was
absent the key is appended (inserted, no merge). -/
theorem C5_svtype (g : Genome) (kw : String) (r : VariantRecord)
    (h : (transform g kw r).2 = Outcome.processed) :
    getInfo (transform g kw r).1.INFO "SVTYPE" = some "DUP" ∧
    (hasKey r.INFO "SVTYPE" = true →
      List.map Prod.fst (transform g kw r).1.INFO =
        List.map Prod.fst r.INFO) ∧
    (hasKey r.INFO "SVTYPE" = false →
      (transform g kw r).1.INFO = r.INFO ++ [("SVTYPE", "DUP")]) := by
  obtain ⟨hm, c, hl, heq⟩ := transform_processed g kw r h
  rw [heq]
  refine ⟨getInfo_setInfo_same r.INFO "SVTYPE" "DUP", ?_, ?_⟩
  · intro hk
    show List.map Prod.fst (setInfo r.INFO "SVTYPE" "DUP") = _
    rw [keys_setInfo, if_pos hk]
  · intro hk
    show setInfo r.INFO "SVTYPE" "DUP" = _
    unfold setInfo
    rw [if_neg (by simp [hk])]

/-- C5, witness: `recDup` carries `SVTYPE=INS`; after the transform the
key holds `DUP` and the key sequence is unchanged. -/
theorem C5_svtype_witness :
    (transform genomeA "DUP" recDup).2 = Outcome.processed ∧
    getInfo (transform genomeA "DUP" recDup).1.INFO "SVTYPE" =
      some "DUP" :=
  ⟨by decide, (C5_svtype genomeA "DUP" recDup (by decide)).1⟩

/-- C6: after a successful transform the alternate-allele list is
exactly the one-element list holding the symbolic `<DUP>` allele. -/
theorem C6_alt (g : Genome) (kw : String) (r : VariantRecord)
    (h : (transform g kw r).2 = Outcome.processed) :
    (transform g kw r).1.ALT = [Allele.symbolic "DUP"] := by
  obtain ⟨hm, c, hl, heq⟩ := transform_processed g kw r h
  rw [heq]

/-- C6, witness: a concrete successful transform ends with ALT
`[<DUP>]`. -/
theorem C6_alt_witness :
    (transform genomeA "DUP" recNoSv).2 = Outcome.processed ∧
    (transform genomeA "DUP" recNoSv).1.ALT = [Allele.symbolic "DUP"] :=
  ⟨by decide, C6_alt genomeA "DUP" recNoSv (by decide)⟩

/-- C7: a record that does not match the spec's rule — its identifiers
do not contain the keyword, or it has no identifier — passes through
the loop body untouched and is forwarded field-for-field identical at
the head of the output stream. -/
theorem C7_passthrough (g : Genome) (kw : String) (r : VariantRecord)
    (rs : List VariantRecord) (h : specMatches kw r.ID = false) :
    transform g kw r = (r, Outcome.skipped) ∧
    (process_vcf g kw (r :: rs)).written =
      r :: (process_vcf g kw rs).written := by
  have hm : matchesKeyword kw r.ID = false := by
    cases hmk : matchesKeyword kw r.ID
    · rfl
    · rw [matchesKeyword_imp_specMatches kw r.ID hmk] at h
      exact absurd h (by simp)
  have ht : transform g kw r = (r, Outcome.skipped) := by
    unfold transform
    rw [if_neg (by simp [hm])]
  exact ⟨ht, by simp [process_vcf, ht]⟩

/-- C7, witness: the non-matching record `recIns` is forwarded
unchanged. -/
theorem C7_passthrough_witness :
    specMatches "DUP" recIns.ID = false ∧
    (process_vcf genomeA "DUP" (recIns :: [])).written =
      recIns :: (process_vcf genomeA "DUP" []).written :=
  ⟨by decide,
    (C7_passthrough genomeA "DUP" recIns [] (by decide)).2⟩

/-- C8: the transform is idempotent — re-running the loop body on the
output of a successful pass (same genome, same keyword) reproduces that
output exactly, again with outcome `processed`; in particular REF, ALT
and SVTYPE are unchanged by the second pass. -/
theorem C8_idempotent (g : Genome) (kw : String) (r : VariantRecord)
    (h : (transform g kw r).2 = Outcome.processed) :
    transform g kw (transform g kw r).1 =
      ((transform g kw r).1, Outcome.processed) := by
  obtain ⟨hm, c, hl, heq⟩ := transform_processed g kw r h
  rw [heq]
  unfold transform
  rw [if_pos hm]
  have hl2 : lookupBase g
      ({ r with
          REF := String.mk [c.toUpper],
          ALT := [Allele.symbolic "DUP"],
          INFO := setInfo r.INFO "SVTYPE" "DUP" } : VariantRecord).CHROM
      ({ r with
          REF := String.mk [c.toUpper],
          ALT := [Allele.symbolic "DUP"],
          INFO := setInfo r.INFO "SVTYPE" "DUP" } : VariantRecord).POS =
      Except.ok c := hl
  rw [hl2]
  simp [setInfo_idem]

/-- C8, witness: a concrete successful transform is a fixed point of a
second pass. -/
theorem C8_idempotent_witness :
    (transform genomeA "DUP" recDup).2 = Outcome.processed ∧
    transform genomeA "DUP" (transform genomeA "DUP" recDup).1 =
      ((transform genomeA "DUP" recDup).1, Outcome.processed) :=
  ⟨by decide, C8_idempotent genomeA "DUP" recDup (by decide)⟩

/-- C9: a successful transform changes nothing besides REF, ALT and the
SVTYPE entry of INFO: contig, position and identifiers keep their
values, every other INFO key keeps its value, and the relative order of
the non-SVTYPE INFO entries is preserved. -/
theorem C9_frame (g : Genome) (kw : String) (r : VariantRecord)
    (h : (transform g kw r).2 = Outcome.processed) :
    (transform g kw r).1.CHROM = r.CHROM ∧
    (transform g kw r).1.POS = r.POS ∧
    (transform g kw r).1.ID = r.ID ∧
    (∀ q, q ≠ "SVTYPE" →
      getInfo (transform g kw r).1.INFO q = getInfo r.INFO q) ∧
    List.filter (fun p => !(p.1 == "SVTYPE")) (transform g kw r).1.INFO =
      List.filter (fun p => !(p.1 == "SVTYPE")) r.INFO := by
  obtain ⟨hm, c, hl, heq⟩ := transform_processed g kw r h
  rw [heq]
  exact ⟨rfl, rfl, rfl,
    fun q hq => getInfo_setInfo_other r.INFO "SVTYPE" "DUP" q hq,
    filter_setInfo r.INFO "SVTYPE" "DUP"⟩

/-- C9, witness: the END entry of `recDup` survives the transform with
its original value. -/
theorem C9_frame_witness :
    (transform genomeA "DUP" recDup).2 = Outcome.processed ∧
    ("END" : String) ≠ "SVTYPE" ∧
    getInfo (transform genomeA "DUP" recDup).1.INFO "END" =
      getInfo recDup.INFO "END" :=
  ⟨by decide, by decide,
    (C9_frame genomeA "DUP" recDup (by decide)).2.2.2.1 "END" (by decide)⟩

/-- C10, counterexample: with the empty keyword, the record whose ID is
the scalar empty string has a non-empty normalized identifier sequence
(the one-element `[""]`), yet the loop body skips it unchanged — so not
every record with a non-empty identifier sequence is transformed. -/
theorem C10_counterexample :
    recScalarEmpty.ID.specSeq = [""] ∧
    transform genomeA "" recScalarEmpty =
      (recScalarEmpty, Outcome.skipped) := by
  refine ⟨by decide, by decide⟩

/-- C10, amended: with the empty keyword a record is transformed (not
skipped) exactly when its raw identifier field is Python-truthy — a
non-empty identifier list or a non-empty scalar identifier.  The
substring test is vacuous, but a record whose sole identifier is the
scalar empty string is still skipped, because the code tests the raw ID
field's truthiness before the substring test. -/
theorem C10_empty_keyword (g : Genome) (r : VariantRecord) :
    ((transform g "" r).2 ≠ Outcome.skipped ↔ r.ID.truthy = true) := by
  rw [transform_snd_ne_skipped, matchesKeyword_empty]
